import Mathlib

/-!
Verification of the TileDB data-flow port finite state machine
(`experimental/tiledb/common/dag/state_machine/fsm.h`).

The development shallowly embeds:
* the state, event and action alphabets (`PortState2`, `PortState3`,
  `PortEvent`, `PortAction`);
* the next-state, exit-action and entry-action tables for the two-stage and
  three-stage variants, transcribed row by row from the constexpr arrays in
  the header;
* the mutex-protected event driver `PortFiniteStateMachine::event` as a pure
  state-transformer `event2` / `event3` parameterised over an action policy
  (the CRTP policy callbacks become functions on the machine record, since a
  policy may mutate `state_` / `next_state_` through `set_state` /
  `set_next_state` while it holds the lock);
* the pass-through policy (all callbacks no-ops) used by the spec's
  testable-property section.

Exceptions (`throw std::logic_error` at the `default:` arms of the two action
switches) are modelled by `Except`/`PhaseResult.fault`; diagnostic printing
is pure logging and is not modelled, except that the list of invoked policy
callbacks is returned as a trace so that "no callback was invoked" is
expressible.
-/

/-- `PortEvent` (fsm.h lines 207-213): the five events of the port state
machine, in declaration order. -/
inductive PortEvent where
  | source_fill
  | source_push
  | sink_drain
  | sink_pull
  | shutdown
deriving DecidableEq, Fintype, Repr

/-- `PortAction` (fsm.h lines 248-258): actions attached to transitions. -/
inductive PortAction where
  | none
  | ac_return
  | source_move
  | sink_move
  | notify_source
  | notify_sink
  | source_wait
  | sink_wait
  | error
deriving DecidableEq, Fintype, Repr

/-- `PortState<two_stage>` (fsm.h lines 90-94): two slot bits plus the
sentinels `error` and `done`. -/
inductive PortState2 where
  | st_00
  | st_01
  | st_10
  | st_11
  | error
  | done
deriving DecidableEq, Fintype, Repr

/-- `PortState<three_stage>` (fsm.h lines 69-85): three slot bits plus the
sentinels `error` and `done`. -/
inductive PortState3 where
  | st_000
  | st_001
  | st_010
  | st_011
  | st_100
  | st_101
  | st_110
  | st_111
  | error
  | done
deriving DecidableEq, Fintype, Repr

/-- `transition_table<PortState, 2>` (fsm.h lines 312-323), transcribed row by
row; rows are states, columns are events in declaration order
(source_fill, source_push, sink_drain, sink_pull, shutdown). -/
def transition_table2 : PortState2 → PortEvent → PortState2
  | PortState2.st_00, e =>
    match e with
    | PortEvent.source_fill => PortState2.st_10
    | PortEvent.source_push => PortState2.st_00
    | PortEvent.sink_drain => PortState2.error
    | PortEvent.sink_pull => PortState2.st_00
    | PortEvent.shutdown => PortState2.error
  | PortState2.st_01, e =>
    match e with
    | PortEvent.source_fill => PortState2.st_11
    | PortEvent.source_push => PortState2.st_01
    | PortEvent.sink_drain => PortState2.st_00
    | PortEvent.sink_pull => PortState2.st_01
    | PortEvent.shutdown => PortState2.error
  | PortState2.st_10, e =>
    match e with
    | PortEvent.source_fill => PortState2.error
    | PortEvent.source_push => PortState2.st_01
    | PortEvent.sink_drain => PortState2.error
    | PortEvent.sink_pull => PortState2.st_01
    | PortEvent.shutdown => PortState2.error
  | PortState2.st_11, e =>
    match e with
    | PortEvent.source_fill => PortState2.error
    | PortEvent.source_push => PortState2.st_11
    | PortEvent.sink_drain => PortState2.st_10
    | PortEvent.sink_pull => PortState2.st_11
    | PortEvent.shutdown => PortState2.error
  | PortState2.error, _ => PortState2.error
  | PortState2.done, _ => PortState2.error

/-- `exit_table<PortState, 2>` (fsm.h lines 325-336). -/
def exit_table2 : PortState2 → PortEvent → PortAction
  | PortState2.st_00, e =>
    match e with
    | PortEvent.sink_pull => PortAction.sink_wait
    | _ => PortAction.none
  | PortState2.st_01, _ => PortAction.none
  | PortState2.st_10, e =>
    match e with
    | PortEvent.source_push => PortAction.source_move
    | PortEvent.sink_pull => PortAction.sink_move
    | _ => PortAction.none
  | PortState2.st_11, e =>
    match e with
    | PortEvent.source_push => PortAction.source_wait
    | _ => PortAction.none
  | PortState2.error, _ => PortAction.none
  | PortState2.done, _ => PortAction.none

/-- `entry_table<PortState, 2>` (fsm.h lines 338-349). -/
def entry_table2 : PortState2 → PortEvent → PortAction
  | PortState2.st_00, e =>
    match e with
    | PortEvent.sink_drain => PortAction.notify_source
    | _ => PortAction.none
  | PortState2.st_01, _ => PortAction.none
  | PortState2.st_10, e =>
    match e with
    | PortEvent.source_fill => PortAction.notify_sink
    | PortEvent.source_push => PortAction.source_move
    | PortEvent.sink_drain => PortAction.notify_source
    | PortEvent.sink_pull => PortAction.sink_move
    | _ => PortAction.none
  | PortState2.st_11, e =>
    match e with
    | PortEvent.source_fill => PortAction.notify_sink
    | _ => PortAction.none
  | PortState2.error, _ => PortAction.none
  | PortState2.done, _ => PortAction.none

/-- `transition_table<PortState, 3>` (fsm.h lines 352-367). -/
def transition_table3 : PortState3 → PortEvent → PortState3
  | PortState3.st_000, e =>
    match e with
    | PortEvent.source_fill => PortState3.st_100
    | PortEvent.source_push => PortState3.st_000
    | PortEvent.sink_drain => PortState3.error
    | PortEvent.sink_pull => PortState3.st_000
    | PortEvent.shutdown => PortState3.error
  | PortState3.st_001, e =>
    match e with
    | PortEvent.source_fill => PortState3.st_101
    | PortEvent.source_push => PortState3.st_001
    | PortEvent.sink_drain => PortState3.st_000
    | PortEvent.sink_pull => PortState3.st_001
    | PortEvent.shutdown => PortState3.error
  | PortState3.st_010, e =>
    match e with
    | PortEvent.source_fill => PortState3.st_110
    | PortEvent.source_push => PortState3.st_001
    | PortEvent.sink_drain => PortState3.error
    | PortEvent.sink_pull => PortState3.st_001
    | PortEvent.shutdown => PortState3.error
  | PortState3.st_011, e =>
    match e with
    | PortEvent.source_fill => PortState3.st_111
    | PortEvent.source_push => PortState3.st_011
    | PortEvent.sink_drain => PortState3.st_010
    | PortEvent.sink_pull => PortState3.st_011
    | PortEvent.shutdown => PortState3.error
  | PortState3.st_100, e =>
    match e with
    | PortEvent.source_fill => PortState3.error
    | PortEvent.source_push => PortState3.st_001
    | PortEvent.sink_drain => PortState3.error
    | PortEvent.sink_pull => PortState3.st_001
    | PortEvent.shutdown => PortState3.error
  | PortState3.st_101, e =>
    match e with
    | PortEvent.source_fill => PortState3.error
    | PortEvent.source_push => PortState3.st_011
    | PortEvent.sink_drain => PortState3.st_100
    | PortEvent.sink_pull => PortState3.st_011
    | PortEvent.shutdown => PortState3.error
  | PortState3.st_110, e =>
    match e with
    | PortEvent.source_fill => PortState3.error
    | PortEvent.source_push => PortState3.st_011
    | PortEvent.sink_drain => PortState3.error
    | PortEvent.sink_pull => PortState3.st_011
    | PortEvent.shutdown => PortState3.error
  | PortState3.st_111, e =>
    match e with
    | PortEvent.source_fill => PortState3.error
    | PortEvent.source_push => PortState3.st_111
    | PortEvent.sink_drain => PortState3.st_110
    | PortEvent.sink_pull => PortState3.st_111
    | PortEvent.shutdown => PortState3.error
  | PortState3.error, _ => PortState3.error
  | PortState3.done, _ => PortState3.error

/-- `exit_table<PortState, 3>` (fsm.h lines 369-384). -/
def exit_table3 : PortState3 → PortEvent → PortAction
  | PortState3.st_000, e =>
    match e with
    | PortEvent.sink_pull => PortAction.sink_wait
    | _ => PortAction.none
  | PortState3.st_001, _ => PortAction.none
  | PortState3.st_010, e =>
    match e with
    | PortEvent.source_push => PortAction.source_move
    | PortEvent.sink_pull => PortAction.sink_move
    | _ => PortAction.none
  | PortState3.st_011, _ => PortAction.none
  | PortState3.st_100, e =>
    match e with
    | PortEvent.source_push => PortAction.source_move
    | PortEvent.sink_pull => PortAction.sink_move
    | _ => PortAction.none
  | PortState3.st_101, e =>
    match e with
    | PortEvent.source_push => PortAction.source_move
    | PortEvent.sink_pull => PortAction.sink_move
    | _ => PortAction.none
  | PortState3.st_110, e =>
    match e with
    | PortEvent.source_push => PortAction.source_move
    | PortEvent.sink_pull => PortAction.sink_move
    | _ => PortAction.none
  | PortState3.st_111, e =>
    match e with
    | PortEvent.source_push => PortAction.source_wait
    | _ => PortAction.none
  | PortState3.error, _ => PortAction.none
  | PortState3.done, _ => PortAction.none

/-- `entry_table<PortState, 3>` (fsm.h lines 386-401). -/
def entry_table3 : PortState3 → PortEvent → PortAction
  | PortState3.st_000, e =>
    match e with
    | PortEvent.sink_drain => PortAction.notify_source
    | _ => PortAction.none
  | PortState3.st_001, _ => PortAction.none
  | PortState3.st_010, e =>
    match e with
    | PortEvent.source_push => PortAction.source_move
    | PortEvent.sink_drain => PortAction.notify_source
    | PortEvent.sink_pull => PortAction.sink_move
    | _ => PortAction.none
  | PortState3.st_011, _ => PortAction.none
  | PortState3.st_100, e =>
    match e with
    | PortEvent.source_fill => PortAction.notify_sink
    | PortEvent.source_push => PortAction.source_move
    | PortEvent.sink_drain => PortAction.notify_source
    | PortEvent.sink_pull => PortAction.sink_move
    | _ => PortAction.none
  | PortState3.st_101, e =>
    match e with
    | PortEvent.source_fill => PortAction.notify_sink
    | PortEvent.source_push => PortAction.source_move
    | PortEvent.sink_pull => PortAction.sink_move
    | _ => PortAction.none
  | PortState3.st_110, e =>
    match e with
    | PortEvent.source_fill => PortAction.notify_sink
    | PortEvent.source_push => PortAction.source_move
    | PortEvent.sink_drain => PortAction.notify_source
    | PortEvent.sink_pull => PortAction.sink_move
    | _ => PortAction.none
  | PortState3.st_111, e =>
    match e with
    | PortEvent.source_fill => PortAction.notify_sink
    | _ => PortAction.none
  | PortState3.error, _ => PortAction.none
  | PortState3.done, _ => PortAction.none

/-! ## Spec-side tables

The following definitions are transcribed from the WORDS of spec section 4.1
(not from the source header): the two next-state tables are the spec's
markdown tables row by row, and the exit/entry tables are the spec's
"all `none` except ..." enumerations.  Claims C1-C3 compare them with the
source-transcribed tables above. -/

/-- Modelled from the spec, section 4.1: the two-stage next-state table,
including the "error / done: error for every event" row. -/
def spec_transition_table2 : PortState2 → PortEvent → PortState2
  | PortState2.st_00, PortEvent.source_fill => PortState2.st_10
  | PortState2.st_00, PortEvent.source_push => PortState2.st_00
  | PortState2.st_00, PortEvent.sink_drain => PortState2.error
  | PortState2.st_00, PortEvent.sink_pull => PortState2.st_00
  | PortState2.st_00, PortEvent.shutdown => PortState2.error
  | PortState2.st_01, PortEvent.source_fill => PortState2.st_11
  | PortState2.st_01, PortEvent.source_push => PortState2.st_01
  | PortState2.st_01, PortEvent.sink_drain => PortState2.st_00
  | PortState2.st_01, PortEvent.sink_pull => PortState2.st_01
  | PortState2.st_01, PortEvent.shutdown => PortState2.error
  | PortState2.st_10, PortEvent.source_fill => PortState2.error
  | PortState2.st_10, PortEvent.source_push => PortState2.st_01
  | PortState2.st_10, PortEvent.sink_drain => PortState2.error
  | PortState2.st_10, PortEvent.sink_pull => PortState2.st_01
  | PortState2.st_10, PortEvent.shutdown => PortState2.error
  | PortState2.st_11, PortEvent.source_fill => PortState2.error
  | PortState2.st_11, PortEvent.source_push => PortState2.st_11
  | PortState2.st_11, PortEvent.sink_drain => PortState2.st_10
  | PortState2.st_11, PortEvent.sink_pull => PortState2.st_11
  | PortState2.st_11, PortEvent.shutdown => PortState2.error
  | PortState2.error, _ => PortState2.error
  | PortState2.done, _ => PortState2.error

/-- Modelled from the spec, section 4.1: "Two-stage exit table: all `none`
except (st_00, pull) = sink_wait; (st_10, push) = source_move;
(st_10, pull) = sink_move; (st_11, push) = source_wait." -/
def spec_exit_table2 : PortState2 → PortEvent → PortAction
  | PortState2.st_00, PortEvent.sink_pull => PortAction.sink_wait
  | PortState2.st_10, PortEvent.source_push => PortAction.source_move
  | PortState2.st_10, PortEvent.sink_pull => PortAction.sink_move
  | PortState2.st_11, PortEvent.source_push => PortAction.source_wait
  | _, _ => PortAction.none

/-- Modelled from the spec, section 4.1: "Two-stage entry table: all `none`
except (st_00, drain) = notify_source; (st_10, fill) = notify_sink;
(st_10, push) = source_move; (st_10, drain) = notify_source;
(st_10, pull) = sink_move; (st_11, fill) = notify_sink." -/
def spec_entry_table2 : PortState2 → PortEvent → PortAction
  | PortState2.st_00, PortEvent.sink_drain => PortAction.notify_source
  | PortState2.st_10, PortEvent.source_fill => PortAction.notify_sink
  | PortState2.st_10, PortEvent.source_push => PortAction.source_move
  | PortState2.st_10, PortEvent.sink_drain => PortAction.notify_source
  | PortState2.st_10, PortEvent.sink_pull => PortAction.sink_move
  | PortState2.st_11, PortEvent.source_fill => PortAction.notify_sink
  | _, _ => PortAction.none

/-- Modelled from the spec, section 4.1: the three-stage next-state table;
the error and done rows map every event to error (spec section 3 invariant
and property P2). -/
def spec_transition_table3 : PortState3 → PortEvent → PortState3
  | PortState3.st_000, PortEvent.source_fill => PortState3.st_100
  | PortState3.st_000, PortEvent.source_push => PortState3.st_000
  | PortState3.st_000, PortEvent.sink_drain => PortState3.error
  | PortState3.st_000, PortEvent.sink_pull => PortState3.st_000
  | PortState3.st_000, PortEvent.shutdown => PortState3.error
  | PortState3.st_001, PortEvent.source_fill => PortState3.st_101
  | PortState3.st_001, PortEvent.source_push => PortState3.st_001
  | PortState3.st_001, PortEvent.sink_drain => PortState3.st_000
  | PortState3.st_001, PortEvent.sink_pull => PortState3.st_001
  | PortState3.st_001, PortEvent.shutdown => PortState3.error
  | PortState3.st_010, PortEvent.source_fill => PortState3.st_110
  | PortState3.st_010, PortEvent.source_push => PortState3.st_001
  | PortState3.st_010, PortEvent.sink_drain => PortState3.error
  | PortState3.st_010, PortEvent.sink_pull => PortState3.st_001
  | PortState3.st_010, PortEvent.shutdown => PortState3.error
  | PortState3.st_011, PortEvent.source_fill => PortState3.st_111
  | PortState3.st_011, PortEvent.source_push => PortState3.st_011
  | PortState3.st_011, PortEvent.sink_drain => PortState3.st_010
  | PortState3.st_011, PortEvent.sink_pull => PortState3.st_011
  | PortState3.st_011, PortEvent.shutdown => PortState3.error
  | PortState3.st_100, PortEvent.source_fill => PortState3.error
  | PortState3.st_100, PortEvent.source_push => PortState3.st_001
  | PortState3.st_100, PortEvent.sink_drain => PortState3.error
  | PortState3.st_100, PortEvent.sink_pull => PortState3.st_001
  | PortState3.st_100, PortEvent.shutdown => PortState3.error
  | PortState3.st_101, PortEvent.source_fill => PortState3.error
  | PortState3.st_101, PortEvent.source_push => PortState3.st_011
  | PortState3.st_101, PortEvent.sink_drain => PortState3.st_100
  | PortState3.st_101, PortEvent.sink_pull => PortState3.st_011
  | PortState3.st_101, PortEvent.shutdown => PortState3.error
  | PortState3.st_110, PortEvent.source_fill => PortState3.error
  | PortState3.st_110, PortEvent.source_push => PortState3.st_011
  | PortState3.st_110, PortEvent.sink_drain => PortState3.error
  | PortState3.st_110, PortEvent.sink_pull => PortState3.st_011
  | PortState3.st_110, PortEvent.shutdown => PortState3.error
  | PortState3.st_111, PortEvent.source_fill => PortState3.error
  | PortState3.st_111, PortEvent.source_push => PortState3.st_111
  | PortState3.st_111, PortEvent.sink_drain => PortState3.st_110
  | PortState3.st_111, PortEvent.sink_pull => PortState3.st_111
  | PortState3.st_111, PortEvent.shutdown => PortState3.error
  | PortState3.error, _ => PortState3.error
  | PortState3.done, _ => PortState3.error

/-- Modelled from the spec, section 4.1: "Three-stage exit table
(non-`none` entries): source_move on push at st_010, st_100, st_101, st_110;
source_wait on push at st_111; sink_move on pull at st_010, st_100, st_101,
st_110; sink_wait on pull at st_000." -/
def spec_exit_table3 : PortState3 → PortEvent → PortAction
  | PortState3.st_010, PortEvent.source_push => PortAction.source_move
  | PortState3.st_100, PortEvent.source_push => PortAction.source_move
  | PortState3.st_101, PortEvent.source_push => PortAction.source_move
  | PortState3.st_110, PortEvent.source_push => PortAction.source_move
  | PortState3.st_111, PortEvent.source_push => PortAction.source_wait
  | PortState3.st_010, PortEvent.sink_pull => PortAction.sink_move
  | PortState3.st_100, PortEvent.sink_pull => PortAction.sink_move
  | PortState3.st_101, PortEvent.sink_pull => PortAction.sink_move
  | PortState3.st_110, PortEvent.sink_pull => PortAction.sink_move
  | PortState3.st_000, PortEvent.sink_pull => PortAction.sink_wait
  | _, _ => PortAction.none

/-- Modelled from the spec, section 4.1: "Three-stage entry table
(non-`none` entries): notify_source on drain at st_000, st_010, st_100,
st_110; notify_sink on fill at st_100, st_101, st_110, st_111; source_move
on push at st_010, st_100, st_101, st_110; sink_move on pull at st_010,
st_100, st_101, st_110." -/
def spec_entry_table3 : PortState3 → PortEvent → PortAction
  | PortState3.st_000, PortEvent.sink_drain => PortAction.notify_source
  | PortState3.st_010, PortEvent.sink_drain => PortAction.notify_source
  | PortState3.st_100, PortEvent.sink_drain => PortAction.notify_source
  | PortState3.st_110, PortEvent.sink_drain => PortAction.notify_source
  | PortState3.st_100, PortEvent.source_fill => PortAction.notify_sink
  | PortState3.st_101, PortEvent.source_fill => PortAction.notify_sink
  | PortState3.st_110, PortEvent.source_fill => PortAction.notify_sink
  | PortState3.st_111, PortEvent.source_fill => PortAction.notify_sink
  | PortState3.st_010, PortEvent.source_push => PortAction.source_move
  | PortState3.st_100, PortEvent.source_push => PortAction.source_move
  | PortState3.st_101, PortEvent.source_push => PortAction.source_move
  | PortState3.st_110, PortEvent.source_push => PortAction.source_move
  | PortState3.st_010, PortEvent.sink_pull => PortAction.sink_move
  | PortState3.st_100, PortEvent.sink_pull => PortAction.sink_move
  | PortState3.st_101, PortEvent.sink_pull => PortAction.sink_move
  | PortState3.st_110, PortEvent.sink_pull => PortAction.sink_move
  | _, _ => PortAction.none

/-! ## The event driver -/

/-- The state fields of `PortFiniteStateMachine` (fsm.h lines 431-432):
`state_` is the committed state, `next_state_` the scratch target state. -/
structure FSM2 where
  state_ : PortState2
  next_state_ : PortState2
deriving DecidableEq, Repr

/-- Three-stage instantiation of `PortFiniteStateMachine`. -/
structure FSM3 where
  state_ : PortState3
  next_state_ : PortState3
deriving DecidableEq, Repr

/-- An action policy for the two-stage machine: the seven CRTP callbacks of
policies.h (`on_ac_return`, `on_source_move`, `on_sink_move`,
`on_source_wait`, `on_sink_wait`, `notify_source`, `notify_sink`).  Each
callback runs with the lock held and may mutate the machine's `state_` /
`next_state_` fields (e.g. via `set_state` / `set_next_state`, or because a
wait released the lock and the peer thread ran), so it is modelled as a
function on the machine record. -/
structure Policy2 where
  on_ac_return : FSM2 → FSM2
  on_source_move : FSM2 → FSM2
  on_sink_move : FSM2 → FSM2
  on_source_wait : FSM2 → FSM2
  on_sink_wait : FSM2 → FSM2
  notify_source : FSM2 → FSM2
  notify_sink : FSM2 → FSM2

/-- An action policy for the three-stage machine. -/
structure Policy3 where
  on_ac_return : FSM3 → FSM3
  on_source_move : FSM3 → FSM3
  on_sink_move : FSM3 → FSM3
  on_source_wait : FSM3 → FSM3
  on_sink_wait : FSM3 → FSM3
  notify_source : FSM3 → FSM3
  notify_sink : FSM3 → FSM3

/-- The pass-through policy of spec section 8: every callback is a no-op. -/
def passthrough2 : Policy2 :=
  ⟨id, id, id, id, id, id, id⟩

/-- The pass-through policy for the three-stage machine. -/
def passthrough3 : Policy3 :=
  ⟨id, id, id, id, id, id, id⟩

/-- Outcome of one action switch of `event()`: `proceed` falls out of the
switch, `early` is a `return` statement inside a case (only `ac_return`
does this), and `fault` is the `default:` arm throwing `std::logic_error`. -/
inductive PhaseResult (α : Type) where
  | proceed (m : α)
  | early (m : α)
  | fault (msg : String)
deriving DecidableEq, Repr

/-- The callbacks invoked by one action switch, for tracing: every case of
the switch except `none` invokes exactly one policy callback. -/
def invoked (a : PortAction) : List PortAction :=
  if a = PortAction.none then [] else [a]

/-- The exit-action switch of `event()` (fsm.h lines 538-600).  No state
re-adjustment happens here; the `default:` arm throws. -/
def exit_phase2 (P : Policy2) : PortAction → FSM2 → PhaseResult FSM2
  | PortAction.none, m => PhaseResult.proceed m
  | PortAction.ac_return, m => PhaseResult.early (P.on_ac_return m)
  | PortAction.source_move, m => PhaseResult.proceed (P.on_source_move m)
  | PortAction.sink_move, m => PhaseResult.proceed (P.on_sink_move m)
  | PortAction.source_wait, m => PhaseResult.proceed (P.on_source_wait m)
  | PortAction.sink_wait, m => PhaseResult.proceed (P.on_sink_wait m)
  | PortAction.notify_source, m => PhaseResult.proceed (P.notify_source m)
  | PortAction.notify_sink, m => PhaseResult.proceed (P.notify_sink m)
  | PortAction.error, _ => PhaseResult.fault ("Unexpected exit action")

/-- The entry-action switch of `event()` (fsm.h lines 635-752).  After a
`source_move` or `sink_move` callback the two-stage driver unconditionally
re-normalises `state_` to `st_01` (fsm.h lines 659-660 and 692-693). -/
def entry_phase2 (P : Policy2) : PortAction → FSM2 → PhaseResult FSM2
  | PortAction.none, m => PhaseResult.proceed m
  | PortAction.ac_return, m => PhaseResult.early (P.on_ac_return m)
  | PortAction.source_move, m =>
    PhaseResult.proceed { P.on_source_move m with state_ := PortState2.st_01 }
  | PortAction.sink_move, m =>
    PhaseResult.proceed { P.on_sink_move m with state_ := PortState2.st_01 }
  | PortAction.source_wait, m => PhaseResult.proceed (P.on_source_wait m)
  | PortAction.sink_wait, m => PhaseResult.proceed (P.on_sink_wait m)
  | PortAction.notify_source, m => PhaseResult.proceed (P.notify_source m)
  | PortAction.notify_sink, m => PhaseResult.proceed (P.notify_sink m)
  | PortAction.error, _ => PhaseResult.fault ("Unexpected entry action")

/-- The three-stage post-move state collapse (fsm.h lines 662-675 and
695-708): `st_010` and `st_100` collapse to `st_001`; `st_110` and `st_101`
collapse to `st_011`; the `default:` case leaves the state unchanged. -/
def collapse3 : PortState3 → PortState3
  | PortState3.st_010 => PortState3.st_001
  | PortState3.st_100 => PortState3.st_001
  | PortState3.st_110 => PortState3.st_011
  | PortState3.st_101 => PortState3.st_011
  | s => s

/-- The exit-action switch for the three-stage machine. -/
def exit_phase3 (P : Policy3) : PortAction → FSM3 → PhaseResult FSM3
  | PortAction.none, m => PhaseResult.proceed m
  | PortAction.ac_return, m => PhaseResult.early (P.on_ac_return m)
  | PortAction.source_move, m => PhaseResult.proceed (P.on_source_move m)
  | PortAction.sink_move, m => PhaseResult.proceed (P.on_sink_move m)
  | PortAction.source_wait, m => PhaseResult.proceed (P.on_source_wait m)
  | PortAction.sink_wait, m => PhaseResult.proceed (P.on_sink_wait m)
  | PortAction.notify_source, m => PhaseResult.proceed (P.notify_source m)
  | PortAction.notify_sink, m => PhaseResult.proceed (P.notify_sink m)
  | PortAction.error, _ => PhaseResult.fault ("Unexpected exit action")

/-- The entry-action switch for the three-stage machine: after a move
callback, `state_` is collapsed by `collapse3` (applied to the state as the
callback left it, matching the `switch (state_)` in the source). -/
def entry_phase3 (P : Policy3) : PortAction → FSM3 → PhaseResult FSM3
  | PortAction.none, m => PhaseResult.proceed m
  | PortAction.ac_return, m => PhaseResult.early (P.on_ac_return m)
  | PortAction.source_move, m =>
    PhaseResult.proceed
      { P.on_source_move m with state_ := collapse3 (P.on_source_move m).state_ }
  | PortAction.sink_move, m =>
    PhaseResult.proceed
      { P.on_sink_move m with state_ := collapse3 (P.on_sink_move m).state_ }
  | PortAction.source_wait, m => PhaseResult.proceed (P.on_source_wait m)
  | PortAction.sink_wait, m => PhaseResult.proceed (P.on_sink_wait m)
  | PortAction.notify_source, m => PhaseResult.proceed (P.notify_source m)
  | PortAction.notify_sink, m => PhaseResult.proceed (P.notify_sink m)
  | PortAction.error, _ => PhaseResult.fault ("Unexpected entry action")

/-- `PortFiniteStateMachine::event` (fsm.h lines 491-761), two-stage.

With the lock held the driver: (1) assigns
`next_state_ := transition_table[state_][event]` and looks up the exit
action; (2) returns immediately on `shutdown` (fsm.h lines 513-516); (3) on
an `error` destination only emits a diagnostic line (not modelled — it does
NOT return or throw, fsm.h lines 518-525); (4) runs the exit-action switch
(an `ac_return` case returns without committing); (5) commits
`state_ := next_state_` (line 615) — note the exit callback may have changed
`next_state_`; (6) re-reads the entry action from
`entry_table[next_state_][event]` (lines 620-622); (7) runs the entry-action
switch.  The returned list is the trace of invoked policy callbacks. -/
def event2 (P : Policy2) (m : FSM2) (e : PortEvent) :
    Except String (FSM2 × List PortAction) :=
  if e = PortEvent.shutdown then
    Except.ok ({ m with next_state_ := transition_table2 m.state_ e }, [])
  else
    match exit_phase2 P (exit_table2 m.state_ e)
        { m with next_state_ := transition_table2 m.state_ e } with
    | PhaseResult.fault msg => Except.error msg
    | PhaseResult.early m2 => Except.ok (m2, invoked (exit_table2 m.state_ e))
    | PhaseResult.proceed m2 =>
      match entry_phase2 P (entry_table2 m2.next_state_ e)
          { m2 with state_ := m2.next_state_ } with
      | PhaseResult.fault msg => Except.error msg
      | PhaseResult.early m3 =>
        Except.ok (m3, invoked (exit_table2 m.state_ e) ++
          invoked (entry_table2 m2.next_state_ e))
      | PhaseResult.proceed m3 =>
        Except.ok (m3, invoked (exit_table2 m.state_ e) ++
          invoked (entry_table2 m2.next_state_ e))

/-- `PortFiniteStateMachine::event`, three-stage (same driver instantiated
at `num_stages = 3`). -/
def event3 (P : Policy3) (m : FSM3) (e : PortEvent) :
    Except String (FSM3 × List PortAction) :=
  if e = PortEvent.shutdown then
    Except.ok ({ m with next_state_ := transition_table3 m.state_ e }, [])
  else
    match exit_phase3 P (exit_table3 m.state_ e)
        { m with next_state_ := transition_table3 m.state_ e } with
    | PhaseResult.fault msg => Except.error msg
    | PhaseResult.early m2 => Except.ok (m2, invoked (exit_table3 m.state_ e))
    | PhaseResult.proceed m2 =>
      match entry_phase3 P (entry_table3 m2.next_state_ e)
          { m2 with state_ := m2.next_state_ } with
      | PhaseResult.fault msg => Except.error msg
      | PhaseResult.early m3 =>
        Except.ok (m3, invoked (exit_table3 m.state_ e) ++
          invoked (entry_table3 m2.next_state_ e))
      | PhaseResult.proceed m3 =>
        Except.ok (m3, invoked (exit_table3 m.state_ e) ++
          invoked (entry_table3 m2.next_state_ e))

/-- A freshly constructed two-stage machine: the default constructor sets
`state_` to ordinal 0, i.e. `st_00` (fsm.h lines 441-443).  The C++ leaves
`next_state_` indeterminate; it is overwritten at the top of `event()`
before any read, and no claim observes it before the first event, so it is
initialised to `st_00` here. -/
def init2 : FSM2 :=
  ⟨PortState2.st_00, PortState2.st_00⟩

/-- A freshly constructed three-stage machine (initial state `st_000`). -/
def init3 : FSM3 :=
  ⟨PortState3.st_000, PortState3.st_000⟩

/-- Apply a sequence of events through `event2` with the pass-through
policy, stopping at the first fault; callback traces are discarded. -/
def run2 : FSM2 → List PortEvent → Except String FSM2
  | m, [] => Except.ok m
  | m, e :: es =>
    match event2 passthrough2 m e with
    | Except.error msg => Except.error msg
    | Except.ok (m2, _) => run2 m2 es

/-- Apply a sequence of events through `event3` with the pass-through
policy. -/
def run3 : FSM3 → List PortEvent → Except String FSM3
  | m, [] => Except.ok m
  | m, e :: es =>
    match event3 passthrough3 m e with
    | Except.error msg => Except.error msg
    | Except.ok (m2, _) => run3 m2 es

/-- The committed state of a driver result: `some` of the final `state_`
when `event` returned normally, `none` when it threw. -/
def result_state2 : Except String (FSM2 × List PortAction) → Option PortState2
  | Except.ok (m, _) => some m.state_
  | Except.error _ => Option.none

/-- Three-stage version of `result_state2`. -/
def result_state3 : Except String (FSM3 × List PortAction) → Option PortState3
  | Except.ok (m, _) => some m.state_
  | Except.error _ => Option.none

/-- The state an action switch fell out with, `none` on `return` or throw. -/
def proceed_state3 : PhaseResult FSM3 → Option PortState3
  | PhaseResult.proceed m => some m.state_
  | _ => Option.none

/-- True on a normal return of the driver, false on a throw. -/
def is_ok {ε α : Type} : Except ε α → Bool
  | Except.ok _ => true
  | Except.error _ => false

/-- The tabulated slot states of the two-stage machine, i.e. every state
except the sentinels `error` and `done`. -/
def is_slot_state2 : PortState2 → Bool
  | PortState2.error => false
  | PortState2.done => false
  | _ => true

/-! ## Helper lemmas -/

/-- Neither two-stage action table contains the unhandled value
`PortAction.error`. -/
theorem exit_table2_handled (s : PortState2) (e : PortEvent) :
    exit_table2 s e ≠ PortAction.error := by
  cases s <;> cases e <;> decide

/-- The two-stage entry table never contains `PortAction.error`. -/
theorem entry_table2_handled (s : PortState2) (e : PortEvent) :
    entry_table2 s e ≠ PortAction.error := by
  cases s <;> cases e <;> decide

/-- The three-stage exit table never contains `PortAction.error`. -/
theorem exit_table3_handled (s : PortState3) (e : PortEvent) :
    exit_table3 s e ≠ PortAction.error := by
  cases s <;> cases e <;> decide

/-- The three-stage entry table never contains `PortAction.error`. -/
theorem entry_table3_handled (s : PortState3) (e : PortEvent) :
    entry_table3 s e ≠ PortAction.error := by
  cases s <;> cases e <;> decide

/-- Every handled action lets the exit switch terminate without reaching
the throwing `default:` arm. -/
theorem exit_phase2_no_fault (P : Policy2) (a : PortAction) (m : FSM2)
    (ha : a ≠ PortAction.error) (s : String) :
    exit_phase2 P a m ≠ PhaseResult.fault s := by
  cases a <;> first
    | exact absurd rfl ha
    | simp [exit_phase2]

/-- The two-stage entry switch cannot fault on a handled action. -/
theorem entry_phase2_no_fault (P : Policy2) (a : PortAction) (m : FSM2)
    (ha : a ≠ PortAction.error) (s : String) :
    entry_phase2 P a m ≠ PhaseResult.fault s := by
  cases a <;> first
    | exact absurd rfl ha
    | simp [entry_phase2]

/-- The three-stage exit switch cannot fault on a handled action. -/
theorem exit_phase3_no_fault (P : Policy3) (a : PortAction) (m : FSM3)
    (ha : a ≠ PortAction.error) (s : String) :
    exit_phase3 P a m ≠ PhaseResult.fault s := by
  cases a <;> first
    | exact absurd rfl ha
    | simp [exit_phase3]

/-- The three-stage entry switch cannot fault on a handled action. -/
theorem entry_phase3_no_fault (P : Policy3) (a : PortAction) (m : FSM3)
    (ha : a ≠ PortAction.error) (s : String) :
    entry_phase3 P a m ≠ PhaseResult.fault s := by
  cases a <;> first
    | exact absurd rfl ha
    | simp [entry_phase3]

/-- The two-stage driver returns normally for every policy, state and
event: the throwing branches are unreachable from the tabulated tables. -/
theorem event2_is_ok (P : Policy2) (m : FSM2) (e : PortEvent) :
    is_ok (event2 P m e) = true := by
  unfold event2
  split
  · rfl
  · split
    · rename_i msg hfault
      exact absurd hfault
        (exit_phase2_no_fault P _ _ (exit_table2_handled m.state_ e) msg)
    · rfl
    · rename_i m2 h2
      split
      · rename_i msg hfault
        exact absurd hfault
          (entry_phase2_no_fault P _ _ (entry_table2_handled m2.next_state_ e) msg)
      · rfl
      · rfl

/-- The three-stage driver returns normally for every policy, state and
event. -/
theorem event3_is_ok (P : Policy3) (m : FSM3) (e : PortEvent) :
    is_ok (event3 P m e) = true := by
  unfold event3
  split
  · rfl
  · split
    · rename_i msg hfault
      exact absurd hfault
        (exit_phase3_no_fault P _ _ (exit_table3_handled m.state_ e) msg)
    · rfl
    · rename_i m2 h2
      split
      · rename_i msg hfault
        exact absurd hfault
          (entry_phase3_no_fault P _ _ (entry_table3_handled m2.next_state_ e) msg)
      · rfl
      · rfl

/-! ## Claims -/

/-- Claim C1: for both the two-stage and three-stage FSMs the next-state
transition table equals the table of spec section 4.1 at every state and
every event; in particular two-stage `st_00` on `source_fill` yields
`st_10` and on `sink_drain` yields `error`, three-stage `st_101` on
`sink_drain` yields `st_100`; and from `error` and `done` every event maps
to `error` (property P2). -/
theorem claim_C1 :
    (∀ (s : PortState2) (e : PortEvent),
      transition_table2 s e = spec_transition_table2 s e)
  ∧ (∀ (s : PortState3) (e : PortEvent),
      transition_table3 s e = spec_transition_table3 s e)
  ∧ transition_table2 PortState2.st_00 PortEvent.source_fill = PortState2.st_10
  ∧ transition_table2 PortState2.st_00 PortEvent.sink_drain = PortState2.error
  ∧ transition_table3 PortState3.st_101 PortEvent.sink_drain = PortState3.st_100
  ∧ (∀ e : PortEvent,
      transition_table2 PortState2.error e = PortState2.error
      ∧ transition_table2 PortState2.done e = PortState2.error
      ∧ transition_table3 PortState3.error e = PortState3.error
      ∧ transition_table3 PortState3.done e = PortState3.error) := by
  refine ⟨?_, ?_, rfl, rfl, rfl, ?_⟩ <;> decide

/-- Claim C2: for both stage counts the exit-action table agrees with spec
section 4.1 in every cell, i.e. it is `PortAction.none` everywhere except
exactly the listed wait- and move-entries. -/
theorem claim_C2 :
    (∀ (s : PortState2) (e : PortEvent), exit_table2 s e = spec_exit_table2 s e)
  ∧ (∀ (s : PortState3) (e : PortEvent), exit_table3 s e = spec_exit_table3 s e) := by
  constructor <;> decide

/-- Claim C3: for both stage counts the entry-action table agrees with spec
section 4.1 in every cell, i.e. it is `PortAction.none` everywhere except
exactly the listed notify- and move-entries. -/
theorem claim_C3 :
    (∀ (s : PortState2) (e : PortEvent), entry_table2 s e = spec_entry_table2 s e)
  ∧ (∀ (s : PortState3) (e : PortEvent), entry_table3 s e = spec_entry_table3 s e) := by
  constructor <;> decide

/-- Claim C5: processing `shutdown` from any non-`error` state returns
immediately: for every policy (so in particular without invoking any policy
callback — the trace of invoked callbacks is empty and the result does not
depend on the policy), the committed state is untouched.  (`next_state_` is
still assigned first; see claim C10.) -/
theorem claim_C5 :
    (∀ (P : Policy2) (m : FSM2), m.state_ ≠ PortState2.error →
      event2 P m PortEvent.shutdown =
        Except.ok (⟨m.state_, PortState2.error⟩, ([] : List PortAction)))
  ∧ (∀ (P : Policy3) (m : FSM3), m.state_ ≠ PortState3.error →
      event3 P m PortEvent.shutdown =
        Except.ok (⟨m.state_, PortState3.error⟩, ([] : List PortAction))) := by
  constructor
  · intro P m h
    obtain ⟨s, ns⟩ := m
    cases s <;> rfl
  · intro P m h
    obtain ⟨s, ns⟩ := m
    cases s <;> rfl

/-- Witness for claim C5 (spec scenario 6): `shutdown` from `st_10` leaves
the committed state at `st_10`, invokes no callback, and returns normally. -/
theorem claim_C5_witness :
    event2 passthrough2 ⟨PortState2.st_10, PortState2.st_00⟩ PortEvent.shutdown =
      Except.ok (⟨PortState2.st_10, PortState2.error⟩, ([] : List PortAction)) :=
  claim_C5.1 passthrough2 ⟨PortState2.st_10, PortState2.st_00⟩ (by decide)

/-- Claim C7: on a fresh two-stage machine with the pass-through policy the
canonical sequence `do_fill, do_push, do_pull, do_drain` (events
`source_fill, source_push, sink_pull, sink_drain`) yields the committed
states `st_10, st_01, st_01, st_00` after the four successive calls, never
`error`, with final state `st_00` (property P3, scenario 1). -/
theorem claim_C7 :
    run2 init2 [PortEvent.source_fill] =
      Except.ok ⟨PortState2.st_10, PortState2.st_10⟩
  ∧ run2 init2 [PortEvent.source_fill, PortEvent.source_push] =
      Except.ok ⟨PortState2.st_01, PortState2.st_01⟩
  ∧ run2 init2 [PortEvent.source_fill, PortEvent.source_push,
      PortEvent.sink_pull] =
      Except.ok ⟨PortState2.st_01, PortState2.st_01⟩
  ∧ run2 init2 [PortEvent.source_fill, PortEvent.source_push,
      PortEvent.sink_pull, PortEvent.sink_drain] =
      Except.ok ⟨PortState2.st_00, PortState2.st_00⟩ :=
  ⟨rfl, rfl, rfl, rfl⟩

/-- Claim C10: `event(shutdown)` first assigns `next_state_` from the
shutdown column of the transition table — which is `error` in every row —
and only then takes the early return, for any policy; so afterwards
`next_state()` observably returns `error` while `state()` still returns the
old state. -/
theorem claim_C10 :
    (∀ s : PortState2, transition_table2 s PortEvent.shutdown = PortState2.error)
  ∧ (∀ (P : Policy2) (m : FSM2),
      event2 P m PortEvent.shutdown =
        Except.ok (⟨m.state_, PortState2.error⟩, ([] : List PortAction)))
  ∧ (∀ s : PortState3, transition_table3 s PortEvent.shutdown = PortState3.error)
  ∧ (∀ (P : Policy3) (m : FSM3),
      event3 P m PortEvent.shutdown =
        Except.ok (⟨m.state_, PortState3.error⟩, ([] : List PortAction))) := by
  refine ⟨by decide, ?_, by decide, ?_⟩
  · intro P m
    obtain ⟨s, ns⟩ := m
    cases s <;> rfl
  · intro P m
    obtain ⟨s, ns⟩ := m
    cases s <;> rfl

/-- Claim C4: whenever the entry phase executes a `source_move` or
`sink_move`, the driver collapses the committed state immediately after the
policy's move callback: two-stage it unconditionally becomes `st_01` (for
every policy); three-stage the state left by the callback is mapped through
`collapse3`, which sends `st_010` and `st_100` to `st_001`, `st_110` and
`st_101` to `st_011`, and leaves every other state unchanged.  Consequently
(pass-through policy, entry action looked up at the committed state as
`event()` does) the observable state after any entry-phase move is `st_01`
resp. one of `st_001`/`st_011` — identically for `source_move` and
`sink_move` (property P4). -/
theorem claim_C4 :
    (∀ (P : Policy2) (a : PortAction) (m m' : FSM2),
      (a = PortAction.source_move ∨ a = PortAction.sink_move) →
      entry_phase2 P a m = PhaseResult.proceed m' →
      m'.state_ = PortState2.st_01)
  ∧ (∀ (P : Policy3) (m m' : FSM3),
      entry_phase3 P PortAction.source_move m = PhaseResult.proceed m' →
      m'.state_ = collapse3 (P.on_source_move m).state_)
  ∧ (∀ (P : Policy3) (m m' : FSM3),
      entry_phase3 P PortAction.sink_move m = PhaseResult.proceed m' →
      m'.state_ = collapse3 (P.on_sink_move m).state_)
  ∧ (∀ s : PortState3,
      ((s = PortState3.st_010 ∨ s = PortState3.st_100) →
        collapse3 s = PortState3.st_001)
      ∧ ((s = PortState3.st_110 ∨ s = PortState3.st_101) →
        collapse3 s = PortState3.st_011)
      ∧ (s ≠ PortState3.st_010 → s ≠ PortState3.st_100 →
          s ≠ PortState3.st_110 → s ≠ PortState3.st_101 → collapse3 s = s))
  ∧ (∀ (ns : PortState3) (e : PortEvent),
      (entry_table3 ns e = PortAction.source_move
        ∨ entry_table3 ns e = PortAction.sink_move) →
      (proceed_state3
          (entry_phase3 passthrough3 (entry_table3 ns e) ⟨ns, ns⟩) =
            some PortState3.st_001
        ∨ proceed_state3
          (entry_phase3 passthrough3 (entry_table3 ns e) ⟨ns, ns⟩) =
            some PortState3.st_011)) := by
  refine ⟨?_, ?_, ?_, by decide, by decide⟩
  · intro P a m m' ha he
    rcases ha with h | h
    · subst h
      have h2 : PhaseResult.proceed
          { P.on_source_move m with state_ := PortState2.st_01 } =
          PhaseResult.proceed m' := he
      injection h2 with h3
      rw [← h3]
    · subst h
      have h2 : PhaseResult.proceed
          { P.on_sink_move m with state_ := PortState2.st_01 } =
          PhaseResult.proceed m' := he
      injection h2 with h3
      rw [← h3]
  · intro P m m' he
    have h2 : PhaseResult.proceed
        { P.on_source_move m with
          state_ := collapse3 (P.on_source_move m).state_ } =
        PhaseResult.proceed m' := he
    injection h2 with h3
    rw [← h3]
  · intro P m m' he
    have h2 : PhaseResult.proceed
        { P.on_sink_move m with
          state_ := collapse3 (P.on_sink_move m).state_ } =
        PhaseResult.proceed m' := he
    injection h2 with h3
    rw [← h3]

/-- Witness for claim C4: a concrete entry-phase `source_move` with the
pass-through policy at committed state `st_10` (two-stage) yields `st_01`,
and at committed state `st_100` on `source_push` (three-stage, where the
entry table holds `source_move`) yields `st_001`. -/
theorem claim_C4_witness :
    entry_phase2 passthrough2 PortAction.source_move
        ⟨PortState2.st_10, PortState2.st_10⟩ =
      PhaseResult.proceed ⟨PortState2.st_01, PortState2.st_10⟩
  ∧ FSM2.state_ ⟨PortState2.st_01, PortState2.st_10⟩ = PortState2.st_01
  ∧ (proceed_state3
        (entry_phase3 passthrough3
          (entry_table3 PortState3.st_100 PortEvent.source_push)
          ⟨PortState3.st_100, PortState3.st_100⟩) = some PortState3.st_001
      ∨ proceed_state3
        (entry_phase3 passthrough3
          (entry_table3 PortState3.st_100 PortEvent.source_push)
          ⟨PortState3.st_100, PortState3.st_100⟩) = some PortState3.st_011) :=
  ⟨rfl,
    claim_C4.1 passthrough2 PortAction.source_move
      ⟨PortState2.st_10, PortState2.st_10⟩ ⟨PortState2.st_01, PortState2.st_10⟩
      (Or.inl rfl) rfl,
    claim_C4.2.2.2.2 PortState3.st_100 PortEvent.source_push (Or.inl rfl)⟩

/-- Claim C8: for every `(state, event)` pair with a non-`shutdown` event
whose next-state table entry is `error`, the pass-through driver completes
and returns normally (`result_state` is `some ...`, i.e. no exception), and
it records the transition: the committed state afterwards is `error`. -/
theorem claim_C8 :
    (∀ (s ns : PortState2) (e : PortEvent), e ≠ PortEvent.shutdown →
      transition_table2 s e = PortState2.error →
      result_state2 (event2 passthrough2 ⟨s, ns⟩ e) = some PortState2.error)
  ∧ (∀ (s ns : PortState3) (e : PortEvent), e ≠ PortEvent.shutdown →
      transition_table3 s e = PortState3.error →
      result_state3 (event3 passthrough3 ⟨s, ns⟩ e) = some PortState3.error) := by
  constructor <;> decide

/-- Witness for claim C8: draining an empty two-stage pipe (`st_00`,
`sink_drain` has table destination `error`) returns normally with committed
state `error`. -/
theorem claim_C8_witness :
    result_state2
      (event2 passthrough2 ⟨PortState2.st_00, PortState2.st_00⟩
        PortEvent.sink_drain) = some PortState2.error :=
  claim_C8.1 PortState2.st_00 PortState2.st_00 PortEvent.sink_drain
    (by decide) (by decide)

/-- An action value the two switches of `event()` handle without reaching
the throwing `default:` arm — i.e. anything except `PortAction.error`. -/
abbrev action_handled (a : PortAction) : Prop :=
  a = PortAction.none ∨ a = PortAction.ac_return ∨ a = PortAction.source_move
  ∨ a = PortAction.sink_move ∨ a = PortAction.source_wait
  ∨ a = PortAction.sink_wait ∨ a = PortAction.notify_source
  ∨ a = PortAction.notify_sink

/-- Claim C9: an exit or entry action outside the handled alphabet makes the
driver raise a fatal logic fault (the `fault` outcome of either switch), but
every in-range lookup of either table yields a handled action, so `event()`
never reaches the default throw: it returns normally for every policy, state
and event of either stage count. -/
theorem claim_C9 :
    (∀ (P : Policy2) (m : FSM2),
      exit_phase2 P PortAction.error m =
        PhaseResult.fault ("Unexpected exit action")
      ∧ entry_phase2 P PortAction.error m =
        PhaseResult.fault ("Unexpected entry action"))
  ∧ (∀ (s : PortState2) (e : PortEvent),
      action_handled (exit_table2 s e) ∧ action_handled (entry_table2 s e))
  ∧ (∀ (P : Policy2) (m : FSM2) (e : PortEvent), is_ok (event2 P m e) = true)
  ∧ (∀ (P : Policy3) (m : FSM3),
      exit_phase3 P PortAction.error m =
        PhaseResult.fault ("Unexpected exit action")
      ∧ entry_phase3 P PortAction.error m =
        PhaseResult.fault ("Unexpected entry action"))
  ∧ (∀ (s : PortState3) (e : PortEvent),
      action_handled (exit_table3 s e) ∧ action_handled (entry_table3 s e))
  ∧ (∀ (P : Policy3) (m : FSM3) (e : PortEvent), is_ok (event3 P m e) = true) :=
  ⟨fun _ _ => ⟨rfl, rfl⟩, by decide, event2_is_ok,
    fun _ _ => ⟨rfl, rfl⟩, by decide, event3_is_ok⟩

/-- One pass-through driver step never produces the sentinel `done` from a
non-`done` state (it can, however, produce `error`; see claim C6). -/
theorem event2_not_done :
    ∀ (s ns : PortState2) (e : PortEvent), s ≠ PortState2.done →
      result_state2 (event2 passthrough2 ⟨s, ns⟩ e) ≠ some PortState2.done := by
  decide

/-- Three-stage version of `event2_not_done`. -/
theorem event3_not_done :
    ∀ (s ns : PortState3) (e : PortEvent), s ≠ PortState3.done →
      result_state3 (event3 passthrough3 ⟨s, ns⟩ e) ≠ some PortState3.done := by
  decide

/-- Along any pass-through run, a two-stage machine whose committed state is
not `done` never reaches `done`. -/
theorem run2_not_done :
    ∀ (es : List PortEvent) (s ns : PortState2) (m' : FSM2),
      s ≠ PortState2.done → run2 ⟨s, ns⟩ es = Except.ok m' →
      m'.state_ ≠ PortState2.done := by
  intro es
  induction es with
  | nil =>
    intro s ns m' h hr
    simp only [run2] at hr
    injection hr with h2
    rw [← h2]
    exact h
  | cons e es ih =>
    intro s ns m' h hr
    simp only [run2] at hr
    cases h2 : event2 passthrough2 ⟨s, ns⟩ e with
    | error msg =>
      rw [h2] at hr
      exact Except.noConfusion hr
    | ok r =>
      obtain ⟨m2, tr⟩ := r
      rw [h2] at hr
      have hr2 : run2 m2 es = Except.ok m' := hr
      have hstep := event2_not_done s ns e h
      rw [h2] at hstep
      have h3 : some m2.state_ ≠ some PortState2.done := hstep
      have h4 : m2.state_ ≠ PortState2.done := fun hc => h3 (congrArg some hc)
      obtain ⟨s2, ns2⟩ := m2
      exact ih s2 ns2 m' h4 hr2

/-- Along any pass-through run, a three-stage machine whose committed state
is not `done` never reaches `done`. -/
theorem run3_not_done :
    ∀ (es : List PortEvent) (s ns : PortState3) (m' : FSM3),
      s ≠ PortState3.done → run3 ⟨s, ns⟩ es = Except.ok m' →
      m'.state_ ≠ PortState3.done := by
  intro es
  induction es with
  | nil =>
    intro s ns m' h hr
    simp only [run3] at hr
    injection hr with h2
    rw [← h2]
    exact h
  | cons e es ih =>
    intro s ns m' h hr
    simp only [run3] at hr
    cases h2 : event3 passthrough3 ⟨s, ns⟩ e with
    | error msg =>
      rw [h2] at hr
      exact Except.noConfusion hr
    | ok r =>
      obtain ⟨m2, tr⟩ := r
      rw [h2] at hr
      have hr2 : run3 m2 es = Except.ok m' := hr
      have hstep := event3_not_done s ns e h
      rw [h2] at hstep
      have h3 : some m2.state_ ≠ some PortState3.done := hstep
      have h4 : m2.state_ ≠ PortState3.done := fun hc => h3 (congrArg some hc)
      obtain ⟨s2, ns2⟩ := m2
      exact ih s2 ns2 m' h4 hr2

/-- Counterexample to claim C6 as stated: one single legal-to-issue event on
a freshly constructed two-stage machine — `sink_drain` from `st_00`, whose
table destination is `error` — makes `event()` commit `state_ := error`
durably (line 615 of fsm.h assigns `state_ = next_state_` even when
`next_state_` is `error`), so the committed state observed after the call
returns is the sentinel `error`, not a tabulated slot state. -/
theorem claim_C6_counterexample :
    run2 init2 [PortEvent.sink_drain] =
      Except.ok ⟨PortState2.error, PortState2.error⟩
  ∧ is_slot_state2 PortState2.error = false :=
  ⟨rfl, rfl⟩

/-- Claim C6, amended: for every event sequence applied via `event()` to a
freshly constructed FSM with the pass-through policy, the committed state
after each call is a tabulated slot state or the sentinel `error` — never
`done`; the driver durably stores `error` as soon as an event with table
destination `error` is processed (rather than only transiently during
diagnostic logging), and from `error` every further event keeps the
committed state at `error`. -/
theorem claim_C6_amended :
    (∀ (es : List PortEvent) (m' : FSM2),
      run2 init2 es = Except.ok m' → m'.state_ ≠ PortState2.done)
  ∧ (∀ (es : List PortEvent) (m' : FSM3),
      run3 init3 es = Except.ok m' → m'.state_ ≠ PortState3.done)
  ∧ (∀ (ns : PortState2) (e : PortEvent),
      result_state2 (event2 passthrough2 ⟨PortState2.error, ns⟩ e) =
        some PortState2.error)
  ∧ (∀ (ns : PortState3) (e : PortEvent),
      result_state3 (event3 passthrough3 ⟨PortState3.error, ns⟩ e) =
        some PortState3.error) := by
  refine ⟨?_, ?_, by decide, by decide⟩
  · intro es m' hr
    exact run2_not_done es PortState2.st_00 PortState2.st_00 m' (by decide) hr
  · intro es m' hr
    exact run3_not_done es PortState3.st_000 PortState3.st_000 m' (by decide) hr

/-- Witness for the amended claim C6, at the concrete run of the
counterexample: the state committed by `sink_drain` on a fresh machine is
(`error`, hence) not `done`. -/
theorem claim_C6_witness :
    FSM2.state_ ⟨PortState2.error, PortState2.error⟩ ≠ PortState2.done :=
  claim_C6_amended.1 [PortEvent.sink_drain]
    ⟨PortState2.error, PortState2.error⟩ rfl
